import Mathlib

/-!
Verification development for the Open Tax Liberty form-filling engine.

The Python sources are shallowly embedded:
JSON values become the inductive `Value` (numbers as exact rationals, the
semantics the `Decimal`-based parts of the code use and an idealisation of
the finite-decimal floats that occur in the configuration files), Python
dicts become ordered association lists, the process-global error-tracking
state (`reported_errors`, `has_critical_errors`) becomes the explicit
`ErrState`, PDF field updates become a log of (field, value) pairs, and a
raised exception becomes a `some PyErr` result with all side effects kept
(as Python keeps the mutations performed before the raise).
-/

/-- A JSON value as produced by `json.load` in `opentaxliberty.py`.
Python `bool` is kept separate from numbers, mirroring that `isinstance`
distinguishes them even though `bool` is a numeric subtype (see `asNum`). -/
inductive Value where
  | null : Value
  | bool : Bool → Value
  | num : ℚ → Value
  | str : String → Value
  | list : List Value → Value
  | obj : List (String × Value) → Value

/-- A Python dict with string keys: an ordered association list. -/
abbrev Dict := List (String × Value)

/-- `d[k]` lookup (first binding wins; Python dict keys are unique). -/
def dictGet {α : Type} : List (String × α) → String → Option α
  | [], _ => none
  | (k1, v1) :: rest, k => if k1 = k then some v1 else dictGet rest k

/-- `d[k] = v`: replace the value in place when the key exists (keeping its
position, as CPython dicts do), else append the new binding. -/
def dictSet {α : Type} : List (String × α) → String → α → List (String × α)
  | [], k, v => [(k, v)]
  | (k1, v1) :: rest, k, v =>
    if k1 = k then (k, v) :: rest else (k1, v1) :: dictSet rest k v

/-- Python truthiness of a JSON value. -/
def truthy : Value → Bool
  | .null => false
  | .bool b => b
  | .num q => q ≠ 0
  | .str s => s ≠ ""
  | .list xs => !xs.isEmpty
  | .obj kvs => !kvs.isEmpty

/-- Is the value the empty string (the check `field_value == ""`)? -/
def isEmptyStr : Value → Bool
  | .str s => s = ""
  | _ => false

/-- The name a directive-list element contributes to error ids.  Directive
lists hold strings in every configuration this repository ships; a
non-string element never resolves in a string-keyed dict, and this model
gives it a fixed placeholder name instead of the `TypeError` a later
`"_".join` would raise in Python on that malformed input. -/
def keyName : Value → String
  | .str s => s
  | _ => "nonstring"

/-- Does `needle` occur as a contiguous run inside `hay`? -/
def listHasRun (needle : List Char) : List Char → Bool
  | [] => needle.isEmpty
  | c :: rest => List.isPrefixOf needle (c :: rest) || listHasRun needle rest

/-- Python `needle in hay` on strings (substring test). -/
def strContains (hay needle : String) : Bool :=
  listHasRun needle.toList hay.toList

/-- The exception kinds raised by the embedded code, with a message. -/
inductive PyErr where
  | keyError : String → PyErr
  | typeError : String → PyErr
  | valueError : String → PyErr
deriving DecidableEq

/-- Discriminator: the computation raised a `KeyError`. -/
def isKeyErr : Option PyErr → Bool
  | some (.keyError _) => true
  | _ => false

/-- Discriminator: the computation raised a `TypeError`. -/
def isTypeErr : Option PyErr → Bool
  | some (.typeError _) => true
  | _ => false

/-- Discriminator: the computation raised a `ValueError`. -/
def isValueErr : Option PyErr → Bool
  | some (.valueError _) => true
  | _ => false

namespace opentaxliberty

/-- `opentaxliberty.is_number`: `isinstance(value, (int, float))`.  Python
booleans are instances of `int`, so they count as numbers; strings, `None`
and containers do not. -/
def is_number : Value → Bool
  | .num _ => true
  | .bool _ => true
  | _ => false

/-- The numeric value of a Value that `is_number` accepts (booleans are the
numeric subtype with `True == 1`, `False == 0`). -/
def asNum : Value → Option ℚ
  | .num q => some q
  | .bool b => some (if b then 1 else 0)
  | _ => none

/-- `opentaxliberty.write_field_pdf`, reduced to the value the page-update
call receives: `none` when the function returns without touching any page
(only when `field_value == ""`), otherwise the value is forwarded
unmodified to `update_page_form_field_values` on every page. -/
def write_field_pdf (v : Value) : Option Value :=
  if isEmptyStr v then none else some v

/-- The (field, value) update entries one `write_field_pdf` call appends to
the write log. -/
def writeApp (tag v : Value) : List (Value × Value) :=
  match write_field_pdf v with
  | none => []
  | some v1 => [(tag, v1)]

/-- The process-global error tracking: the three sets behind
`reported_errors` (a `defaultdict(set)` keyed by classification) and the
`has_critical_errors` flag. -/
structure ErrState where
  key_error : List String
  type_error : List String
  calc_error : List String
  has_critical_errors : Bool
deriving DecidableEq

/-- Fresh error tracking, as at interpreter start. -/
def ErrState.init : ErrState := ⟨[], [], [], false⟩

/-- Set the `has_critical_errors` flag. -/
def ErrState.critical (es : ErrState) : ErrState :=
  { es with has_critical_errors := true }

/-- The mutable state one processing run threads: the whole
`input_json_data` tree, the log of PDF field updates performed so far, and
the error tracking globals. -/
structure ProcState where
  data : Dict
  writes : List (Value × Value)
  errs : ErrState

/-- The gate shared by all three field processors:
`tag_key in input_json_data[key] and input_json_data[key][tag_key]`. -/
def tagGate (sec : Dict) (sub_key : String) : Bool :=
  match dictGet sec (sub_key ++ "_tag") with
  | some t => truthy t
  | none => false

/-- The per-reference loop of `process_sum_calculation`: accumulate numeric
hits, collect missing keys, and on a non-numeric value raise `TypeError`
unless the same `non_numeric_<key>_<field>` id was already reported (then
the value is skipped silently). -/
def sumFold (key : String) (sec : Dict) :
    List Value → ℚ → List String → ErrState →
    ℚ × List String × ErrState × Option PyErr
  | [], acc, missing, es => (acc, missing, es, none)
  | f :: rest, acc, missing, es =>
    match (match f with | .str s => dictGet sec s | _ => none) with
    | none => sumFold key sec rest acc (missing ++ [keyName f]) es
    | some v =>
      match asNum v with
      | some q => sumFold key sec rest (acc + q) missing es
      | none =>
        let errorId := "non_numeric_" ++ key ++ "_" ++ keyName f
        if es.type_error.contains errorId then
          sumFold key sec rest acc missing es
        else
          (acc, missing,
           { es with type_error := es.type_error ++ [errorId],
                     has_critical_errors := true },
           some (.typeError errorId))

/-- The tail of `process_sum_calculation` once the fold came back without
raising: write the computed total to the PDF at the tag and overwrite the
directive key in the model with it. -/
def sumFinish (st : ProcState) (key sub_key : String) (sec : Dict)
    (acc : ℚ) (es : ErrState) : ProcState × Option PyErr :=
  let tagVal := (dictGet sec (sub_key ++ "_tag")).getD .null
  let sec1 := dictSet sec sub_key (.num acc)
  ({ data := dictSet st.data key (.obj sec1),
     writes := st.writes ++ writeApp tagVal (.num acc),
     errs := es }, none)

/-- The body of `process_sum_calculation` behind the tag gate: reject a
non-list directive value, fold the references, then handle the collected
missing fields — logged once per `<key>_<sub_key>_missing_<fields>` id, and
raised as `KeyError` (critical) only when every reference is missing and
the id is fresh; in every other case the partial total is written. -/
def sumBody (st : ProcState) (key sub_key : String) (sec : Dict) :
    ProcState × Option PyErr :=
  match dictGet sec sub_key with
  | some (.list fields) =>
    match sumFold key sec fields 0 [] st.errs with
    | (_, _, es1, some e) => ({ st with errs := es1 }, some e)
    | (acc, missing, es1, none) =>
      if missing.isEmpty then sumFinish st key sub_key sec acc es1
      else
        let errorId :=
          key ++ "_" ++ sub_key ++ "_missing_" ++ String.intercalate "_" missing
        if es1.key_error.contains errorId then
          sumFinish st key sub_key sec acc es1
        else
          let es2 := { es1 with key_error := es1.key_error ++ [errorId] }
          if missing.length = fields.length then
            ({ st with errs := es2.critical }, some (.keyError errorId))
          else sumFinish st key sub_key sec acc es2
  | some _ =>
    ({ st with errs := st.errs.critical },
     some (.typeError ("sum field list is not a list: " ++ sub_key)))
  | none => (st, some (.keyError sub_key))

/-- `opentaxliberty.process_sum_calculation(input_json_data, key, sub_key,
writer)`.  With the tag sibling absent or falsy the call is a no-op. -/
def process_sum_calculation (st : ProcState) (key sub_key : String) :
    ProcState × Option PyErr :=
  match dictGet st.data key with
  | some (.obj sec) =>
    if tagGate sec sub_key then sumBody st key sub_key sec else (st, none)
  | _ => (st, none)

/-- The references of a subtract directive that are absent from the
section, in order (`missing_fields` in the source). -/
def missingOf (sec : Dict) (fields : List Value) : List String :=
  fields.filterMap fun f =>
    match f with
    | .str s => if (dictGet sec s).isSome then none else some (keyName f)
    | _ => some (keyName f)

/-- The subtrahend loop of `process_subtraction_calculation`: skip
references that are absent (already logged), subtract numeric values, and
on a non-numeric value raise `TypeError` unless its id was already
reported (then skip).  When the running value itself is not numeric
(possible only after a deduplicated non-numeric minuend) the subtraction
`sub_calculation - value` raises a genuine `TypeError` as in Python. -/
def subFold (key : String) (sec : Dict) :
    List Value → Value → ErrState → Value × ErrState × Option PyErr
  | [], acc, es => (acc, es, none)
  | f :: rest, acc, es =>
    match (match f with | .str s => dictGet sec s | _ => none) with
    | none => subFold key sec rest acc es
    | some v =>
      match asNum v with
      | some b =>
        match asNum acc with
        | some a => subFold key sec rest (.num (a - b)) es
        | none => (acc, es, some (.typeError "unsupported operand types"))
      | none =>
        let errorId := "non_numeric_" ++ key ++ "_" ++ keyName f
        if es.type_error.contains errorId then subFold key sec rest acc es
        else
          (acc,
           { es with type_error := es.type_error ++ [errorId],
                     has_critical_errors := true },
           some (.typeError errorId))

/-- The tail of `process_subtraction_calculation` after the fold: a final
result that is negative is displayed as the literal `"-0-"` while the raw
numeric result — negative included — is stored back at the directive key
(`input_json_data[key][sub_key] = sub_calculation`). -/
def subFinish (st : ProcState) (key sub_key : String) (sec : Dict)
    (acc : Value) (es : ErrState) : ProcState × Option PyErr :=
  match asNum acc with
  | none => ({ st with errs := es }, some (.typeError "comparison with a non-number"))
  | some a =>
    let display := if a < 0 then Value.str "-0-" else acc
    let tagVal := (dictGet sec (sub_key ++ "_tag")).getD .null
    let sec1 := dictSet sec sub_key acc
    ({ data := dictSet st.data key (.obj sec1),
       writes := st.writes ++ writeApp tagVal display,
       errs := es }, none)

/-- The dedup block of `process_subtraction_calculation` for missing
references: log once per id; on a fresh id raise `KeyError` (critical)
when every reference is missing, or when the minuend is among the missing;
a repeated id is suppressed entirely and processing proceeds. -/
def subMissingCheck (key sub_key : String) (fields : List Value)
    (missing : List String) (es : ErrState) : ErrState × Option PyErr :=
  if missing.isEmpty then (es, none)
  else
    let errorId :=
      key ++ "_" ++ sub_key ++ "_missing_" ++ String.intercalate "_" missing
    if es.key_error.contains errorId then (es, none)
    else
      let es1 := { es with key_error := es.key_error ++ [errorId] }
      if missing.length = fields.length then
        (es1.critical, some (.keyError errorId))
      else if missing.contains (keyName (fields.headD .null)) then
        (es1.critical, some (.keyError ("missing minuend in " ++ sub_key)))
      else (es1, none)

/-- The body of `process_subtraction_calculation` behind the tag gate:
non-list directive → `TypeError`; fewer than two references →
`ValueError`; then the missing-fields dedup block, the mandatory-minuend
fetch (a genuine `KeyError` when it is absent and the dedup block was
suppressed), the minuend numeric check (deduplicated `TypeError`), the
subtrahend fold and the negative-floor finish. -/
def subBody (st : ProcState) (key sub_key : String) (sec : Dict) :
    ProcState × Option PyErr :=
  match dictGet sec sub_key with
  | some (.list fields) =>
    if fields.length < 2 then
      ({ st with errs := st.errs.critical },
       some (.valueError ("subtract needs at least 2 fields: " ++ sub_key)))
    else
      match subMissingCheck key sub_key fields (missingOf sec fields) st.errs with
      | (es1, some e) => ({ st with errs := es1 }, some e)
      | (es1, none) =>
        match (match fields.headD .null with
               | .str s => dictGet sec s
               | _ => none) with
        | none => ({ st with errs := es1 }, some (.keyError sub_key))
        | some minuend =>
          if is_number minuend then
            match subFold key sec fields.tail minuend es1 with
            | (_, es2, some e) => ({ st with errs := es2 }, some e)
            | (acc, es2, none) => subFinish st key sub_key sec acc es2
          else
            let errorId :=
              "non_numeric_" ++ key ++ "_" ++ keyName (fields.headD .null)
            if es1.type_error.contains errorId then
              match subFold key sec fields.tail minuend es1 with
              | (_, es2, some e) => ({ st with errs := es2 }, some e)
              | (acc, es2, none) => subFinish st key sub_key sec acc es2
            else
              ({ st with errs :=
                  { es1 with type_error := es1.type_error ++ [errorId],
                             has_critical_errors := true } },
               some (.typeError errorId))
  | some _ =>
    ({ st with errs := st.errs.critical },
     some (.typeError ("subtract field list is not a list: " ++ sub_key)))
  | none => (st, some (.keyError sub_key))

/-- `opentaxliberty.process_subtraction_calculation(input_json_data, key,
sub_key, writer)`.  With the tag sibling absent or falsy, a no-op. -/
def process_subtraction_calculation (st : ProcState) (key sub_key : String) :
    ProcState × Option PyErr :=
  match dictGet st.data key with
  | some (.obj sec) =>
    if tagGate sec sub_key then subBody st key sub_key sec else (st, none)
  | _ => (st, none)

/-- `opentaxliberty.process_regular_field`: with a present, truthy tag
sibling the field value is forwarded to the PDF sink unchanged; otherwise
nothing happens.  The model is never mutated. -/
def process_regular_field (st : ProcState) (key sub_key : String)
    (sub_value : Value) : ProcState × Option PyErr :=
  match dictGet st.data key with
  | some (.obj sec) =>
    if tagGate sec sub_key then
      let tagVal := (dictGet sec (sub_key ++ "_tag")).getD .null
      ({ st with writes := st.writes ++ writeApp tagVal sub_value }, none)
    else (st, none)
  | _ => (st, none)

/-- The keys `process_generic_section` skips: `sub_key in ['value',
'_comment']`. -/
def isSkipKey (k : String) : Bool :=
  k == "value" || k == "_comment"

/-- The sub-key loop of `process_generic_section` over a snapshot of the
section's keys (directive processing replaces values of existing keys
only, so the key list never changes mid-walk; values are re-read from the
evolving state, as Python's live dict view does).  Dispatch is lexical:
`"sum" in sub_key` first, then `"subtract" in sub_key`, else a regular
field.  An exception from any sub-key is logged and re-raised, aborting
the remaining sub-keys of this section. -/
def processSubKeys (key : String) : List String → ProcState →
    ProcState × Option PyErr
  | [], st => (st, none)
  | sk :: rest, st =>
    if isSkipKey sk then processSubKeys key rest st
    else
      match
        (if strContains sk "sum" then process_sum_calculation st key sk
         else if strContains sk "subtract" then
           process_subtraction_calculation st key sk
         else
           match dictGet st.data key with
           | some (.obj sec) =>
             match dictGet sec sk with
             | some v => process_regular_field st key sk v
             | none => (st, none)
           | _ => (st, none)) with
      | (st1, some e) => (st1, some e)
      | (st1, none) => processSubKeys key rest st1

/-- `opentaxliberty.process_generic_section(input_json_data, key, writer)`:
reject a non-dict section with `TypeError`; write the section-level
`tag`/`value` pair when both keys exist; then walk the sub-keys. -/
def process_generic_section (st : ProcState) (key : String) :
    ProcState × Option PyErr :=
  match dictGet st.data key with
  | some (.obj sec) =>
    let st1 :=
      match dictGet sec "tag", dictGet sec "value" with
      | some tagV, some valV =>
        { st with writes := st.writes ++ writeApp tagV valV }
      | _, _ => st
    processSubKeys key (sec.map Prod.fst) st1
  | some _ => (st, some (.typeError ("Section is not a dictionary: " ++ key)))
  | none => (st, some (.keyError key))

/-- The entry loop of `opentaxliberty.calculate_w2_totals`: entries holding
a `_comment` or `tag` key are skipped; `box_1` is mandatory and numeric
(`KeyError`/`TypeError` otherwise); `box_2` is optional but must be
numeric when present. -/
def w2Fold : List Value → ℚ → ℚ → Except PyErr (ℚ × ℚ)
  | [], t1, t2 => .ok (t1, t2)
  | e :: rest, t1, t2 =>
    match e with
    | .obj ed =>
      if (dictGet ed "_comment").isSome then w2Fold rest t1 t2
      else if (dictGet ed "tag").isSome then w2Fold rest t1 t2
      else
        match dictGet ed "box_1" with
        | none => .error (.keyError "box_1")
        | some b1 =>
          match asNum b1 with
          | none => .error (.typeError "box_1")
          | some q1 =>
            match dictGet ed "box_2" with
            | none => w2Fold rest (t1 + q1) t2
            | some b2 =>
              match asNum b2 with
              | none => .error (.typeError "box_2")
              | some q2 => w2Fold rest (t1 + q1) (t2 + q2)
    | _ => .error (.typeError "W-2 entry is not a dictionary")

/-- `opentaxliberty.calculate_w2_totals(w2_data)`: the loop runs over
`range(0, len(w2_data) - 2)`, so the LAST TWO list elements — reserved for
the `box_1_tag` / `box_2_tag` holders — are always excluded from the
totals, whatever they contain. -/
def calculate_w2_totals (w2 : List Value) : Except PyErr (ℚ × ℚ) :=
  w2Fold (w2.take (w2.length - 2)) 0 0

/-- `opentaxliberty.update_income_and_payments`: store `total_box_1` at
`income.L1a` and `total_box_2` at `payments.L25a`; a missing section is a
`KeyError` (with the income update already performed when payments is the
missing one), a non-dict section a `TypeError`. -/
def update_income_and_payments (st : ProcState) (t1 t2 : ℚ) :
    ProcState × Option PyErr :=
  match dictGet st.data "income" with
  | some (.obj inc) =>
    let st1 :=
      { st with data := dictSet st.data "income" (.obj (dictSet inc "L1a" (.num t1))) }
    match dictGet st1.data "payments" with
    | some (Value.obj pay) =>
      ({ st1 with
         data := dictSet st1.data "payments" (.obj (dictSet pay "L25a" (.num t2))) },
       none)
    | some _ => (st1, some (.typeError "payments"))
    | none => (st1, some (.keyError "payments"))
  | some _ => (st, some (.typeError "income"))
  | none => (st, some (.keyError "income"))

/-- `opentaxliberty.write_w2_totals_to_pdf`: the second-to-last list entry
must carry `box_1_tag` and the last `box_2_tag`; each total is forwarded to
the PDF sink at its tag (the first write persists when the second tag is
missing). -/
def write_w2_totals_to_pdf (st : ProcState) (w2 : List Value) (t1 t2 : ℚ) :
    ProcState × Option PyErr :=
  if w2.length < 2 then (st, some (.valueError "W-2 data list is too short"))
  else
    match (match w2.getD (w2.length - 2) .null with
           | .obj e => dictGet e "box_1_tag"
           | _ => none) with
    | none => (st, some (.keyError "box_1_tag"))
    | some tag1 =>
      let st1 := { st with writes := st.writes ++ writeApp tag1 (.num t1) }
      match (match w2.getD (w2.length - 1) .null with
             | .obj e => dictGet e "box_2_tag"
             | _ => none) with
      | none => (st1, some (.keyError "box_2_tag"))
      | some tag2 =>
        ({ st1 with writes := st1.writes ++ writeApp tag2 (.num t2) }, none)

/-- `opentaxliberty.process_w2_section`: the section value must be a list;
totals are computed, stored into income/payments, and written to the PDF. -/
def process_w2_section (st : ProcState) (key : String) :
    ProcState × Option PyErr :=
  match dictGet st.data key with
  | some (.list w2) =>
    match calculate_w2_totals w2 with
    | .error e => (st, some e)
    | .ok (t1, t2) =>
      match update_income_and_payments st t1 t2 with
      | (st1, some e) => (st1, some e)
      | (st1, none) => write_w2_totals_to_pdf st1 w2 t1 t2
  | some _ => (st, some (.typeError "W-2 data should be a list"))
  | none => (st, some (.keyError key))

/-- Mark that a critical error occurred (the `except` handler of the
top-level key loop sets `has_critical_errors = True`). -/
def setCritical (st : ProcState) : ProcState :=
  { st with errs := st.errs.critical }

/-- The per-key loop of `process_input_json`: skip `configuration`,
dispatch `w-2` to the W-2 processor and everything else to the generic
section processor, and CATCH any exception at this boundary — the error is
logged, `has_critical_errors` is set, and the walk continues with the next
top-level key. -/
def topLoop : List String → ProcState → ProcState
  | [], st => st
  | k :: rest, st =>
    if k = "configuration" then topLoop rest st
    else
      match
        (if k = "w-2" then process_w2_section st k
         else process_generic_section st k) with
      | (st1, some _) => topLoop rest (setCritical st1)
      | (st1, none) => topLoop rest st1

/-- `opentaxliberty.reset_error_tracking`: rebinds the global
`reported_errors` to a fresh `defaultdict(set)`, but the assignment
`has_critical_errors = False` binds a FUNCTION-LOCAL name — the function
declares `global reported_errors` only — so the global critical flag is
left unchanged by the reset. -/
def reset_error_tracking (es : ErrState) : ErrState :=
  { key_error := [], type_error := [], calc_error := [],
    has_critical_errors := es.has_critical_errors }

/-- `opentaxliberty.process_input_json(input_json_data, writer)` given the
process-global error-tracking state `g` carried over from earlier runs:
reset the tracking, reject a non-dict input (`TypeError`) or a missing
`configuration` section (`KeyError`), walk every top-level key with
per-section error capture, and finally raise one aggregate `ValueError`
when the critical flag is set. -/
def process_input_json (data : Value) (g : ErrState) :
    ProcState × Option PyErr :=
  let es := reset_error_tracking g
  match data with
  | .obj kvs =>
    let st0 : ProcState := { data := kvs, writes := [], errs := es }
    if (dictGet kvs "configuration").isSome then
      let st1 := topLoop (kvs.map Prod.fst) st0
      if st1.errs.has_critical_errors then
        (st1,
         some (.valueError
           "Critical errors occurred during form processing. Check logs for details."))
      else (st1, none)
    else
      (st0, some (.keyError "Missing required configuration section in JSON data"))
  | _ =>
    ({ data := [], writes := [], errs := es },
     some (.typeError "Expected input_json_data to be a dictionary"))

end opentaxliberty

namespace pdf_utility

/-- Value of a list of decimal digit characters; `none` when the list is
empty or holds a non-digit (the `Decimal` constructor raising). -/
def digitsToNat (cs : List Char) : Option ℕ :=
  if cs.isEmpty then none
  else
    cs.foldl
      (fun acc? c =>
        acc?.bind fun acc =>
          if c.isDigit then some (acc * 10 + (c.toNat - 48)) else none)
      (some 0)

/-- A plain fixed-point decimal literal (optional leading minus, digits,
optional point and digits) as a rational; `none` when the text is not of
that shape.  This models the `Decimal(...)` constructor on the only inputs
the sink feeds it. -/
def parseDecimal (s : String) : Option ℚ :=
  let (sgn, cs) :=
    match s.toList with
    | c :: rest => if c = Char.ofNat 45 then ((-1 : ℚ), rest) else ((1 : ℚ), s.toList)
    | [] => ((1 : ℚ), [])
  let intPart := cs.takeWhile fun c => c ≠ Char.ofNat 46
  match cs.dropWhile (fun c => c ≠ Char.ofNat 46) with
  | [] => (digitsToNat intPart).map fun n => sgn * n
  | _ :: frac =>
    if frac.contains (Char.ofNat 46) then none
    else
      (digitsToNat intPart).bind fun i =>
        (digitsToNat frac).map fun f =>
          sgn * ((i : ℚ) + (f : ℚ) / (10 : ℚ) ^ frac.length)

/-- The decimal string of an integer, as Python `str(int(...))` renders
it. -/
def intStr (n : ℤ) : String :=
  if n < 0 then "-" ++ Nat.repr n.natAbs else Nat.repr n.natAbs

/-- The number of decimal places a rational needs (searched up to 20, the
range that covers every value a double renders in fixed-point form). -/
def decExp (q : ℚ) : ℕ :=
  ((List.range 21).find? fun k => (q * (10 : ℚ) ^ k).den = 1).getD 20

/-- The fixed-point decimal string of a rational with a finite decimal
expansion: models Python `str()` on the `float`/`Decimal` values the sink
receives (e.g. `31.5` renders as `"31.5"`). -/
def decimalRender (q : ℚ) : String :=
  let k := decExp q
  let m : ℤ := (q * (10 : ℚ) ^ k).num
  let sign := if m < 0 then "-" else ""
  let s := Nat.repr m.natAbs
  if k = 0 then sign ++ s
  else
    let s :=
      if s.length ≤ k then
        (List.replicate (k + 1 - s.length) (Char.ofNat 48)).asString ++ s
      else s
    sign ++ (s.toList.take (s.length - k)).asString ++ "." ++
      (s.toList.drop (s.length - k)).asString

/-- Python `str()` of a JSON value, for the values the sink can receive.
Containers are abbreviated: the form-filling flow never hands a list or a
dict to the sink, and their Python `repr` text decides nothing here. -/
def pyStr : Value → String
  | .null => "None"
  | .bool true => "True"
  | .bool false => "False"
  | .num q => if q.den = 1 then intStr q.num else decimalRender q
  | .str s => s
  | .list _ => "[...]"
  | .obj _ => "{...}"

/-- The string branch of the sink's normalization: a string containing a
point and ending in `.0` or `.00` is parsed as a decimal and re-rendered
as an integer string; any parse failure keeps the original text. -/
def strNorm (s : String) : String :=
  if s.toList.contains (Char.ofNat 46) then
    if s.endsWith ".0" || s.endsWith ".00" then
      match parseDecimal s with
      | some q => intStr (q.num.tdiv (q.den : ℤ))
      | none => s
    else s
  else s

/-- The check `field_value == 0` (Python numeric cross-type equality:
true for the number zero and for `False`). -/
def eqZeroPy : Value → Bool
  | .num q => q = 0
  | .bool b => !b
  | _ => false

/-- `pdf_utility.write_field_pdf`, reduced to the string the page-update
call receives: `none` when the call returns without touching any page
(`field_value == ""` or `field_value == 0`); otherwise a non-string value
is rendered via `Decimal(str(v))` — whole values as the integer string,
others as their fixed-point text — and a string value passes through
`strNorm`.  The per-page update loop and the `ValueError` raised when no
page has the field are outside this value-level model. -/
def write_field_pdf (v : Value) : Option String :=
  if isEmptyStr v then none
  else if eqZeroPy v then none
  else
    match v with
    | .str s => some (strNorm s)
    | .num q => some (if q.den = 1 then intStr q.num else decimalRender q)
    | other => some (pyStr other)

end pdf_utility

namespace W2_validator

/-- `W2_validator.W2Entry`: `box_1` and `box_2` are mandatory
`Decimal` fields, boxes 3–11 optional.  Decimal arithmetic on these
amounts is exact, so they embed as rationals. -/
structure W2Entry where
  organization : String
  box_1 : ℚ
  box_2 : ℚ
  box_3 : Option ℚ := none
  box_4 : Option ℚ := none
  box_5 : Option ℚ := none
  box_6 : Option ℚ := none
  box_7 : Option ℚ := none
  box_8 : Option ℚ := none
  box_10 : Option ℚ := none
  box_11 : Option ℚ := none

/-- Total of an optional box across entries:
`sum(box_values)` over the entries that define the box, `Decimal('0')`
when none does. -/
def optTotal (vs : List (Option ℚ)) : ℚ :=
  ((vs.filterMap id).foldl (· + ·) 0)

/-- `W2Document.calculate_totals`: the totals mapping computed by the
`after`-mode model validator.  `total_box_1` / `total_box_2` are the sums
over all entries (`Decimal('0')` for the empty list), optional boxes sum
the defining entries only. -/
def calculate_totals (entries : List W2Entry) : List (String × ℚ) :=
  [("total_box_1", (entries.map (·.box_1)).foldl (· + ·) 0),
   ("total_box_2", (entries.map (·.box_2)).foldl (· + ·) 0),
   ("total_box_3", optTotal (entries.map (·.box_3))),
   ("total_box_4", optTotal (entries.map (·.box_4))),
   ("total_box_5", optTotal (entries.map (·.box_5))),
   ("total_box_6", optTotal (entries.map (·.box_6))),
   ("total_box_7", optTotal (entries.map (·.box_7))),
   ("total_box_8", optTotal (entries.map (·.box_8))),
   ("total_box_10", optTotal (entries.map (·.box_10))),
   ("total_box_11", optTotal (entries.map (·.box_11)))]

end W2_validator

namespace F1040

/-- The three checkbox fields of `F1040.FilingStatus` that
`calculate_standard_deduction` consults. -/
structure FilingStatus where
  single_or_HOH : String
  married_filing_jointly_or_QSS : String
  married_filing_separately : String

/-- `FilingStatus.validate_filing_status_selection`: exactly one of the
three status checkboxes differs from `"/Off"`. -/
def oneStatusSelected (fs : FilingStatus) : Prop :=
  (fs.single_or_HOH ≠ "/Off" ∧ fs.married_filing_jointly_or_QSS = "/Off" ∧
     fs.married_filing_separately = "/Off") ∨
  (fs.single_or_HOH = "/Off" ∧ fs.married_filing_jointly_or_QSS ≠ "/Off" ∧
     fs.married_filing_separately = "/Off") ∨
  (fs.single_or_HOH = "/Off" ∧ fs.married_filing_jointly_or_QSS = "/Off" ∧
     fs.married_filing_separately ≠ "/Off")

/-- `F1040Document.calculate_standard_deduction`, as the new value of
`income.L12` given the filing status and the incoming `L12`.  The guard
that would skip the overwrite when `L12` is already non-zero is commented
out in the source, so a matching filing status always overwrites `L12`;
only a status matching none of the three branches leaves it alone. -/
def calculate_standard_deduction (fs : FilingStatus) (L12 : ℚ) : ℚ :=
  if fs.single_or_HOH = "/1" ∨ fs.married_filing_separately = "/1" then 14600
  else if fs.married_filing_jointly_or_QSS = "/3" ∨
      fs.married_filing_jointly_or_QSS = "/4" then 29200
  else if fs.single_or_HOH = "/2" then 21900
  else L12

end F1040

/-- The current value bound at `data[key][sub_key]` of a processing state,
for stating what a directive stored back into the model. -/
def modelValue (st : opentaxliberty.ProcState) (key sub_key : String) :
    Option Value :=
  match dictGet st.data key with
  | some (.obj sec) => dictGet sec sub_key
  | _ => none

/-- Did the run write to the PDF field named `tag`? -/
def writesContain (ws : List (Value × Value)) (tag : String) : Bool :=
  ws.any fun p =>
    match p.1 with
    | .str s => s == tag
    | _ => false

/-! Concrete inputs used by the claim theorems. -/

/-- C1 input: a section with `a = 50`, `b = 75` and the subtract directive
`subtract_result = ["a", "b"]` with its tag present. -/
def c1State : opentaxliberty.ProcState :=
  { data := [("section1", .obj
      [("a", .num 50), ("b", .num 75),
       ("subtract_result", .list [.str "a", .str "b"]),
       ("subtract_result_tag", .str "t")])],
    writes := [], errs := opentaxliberty.ErrState.init }

/-- C2 input: `a = 10`, `b = "x"`, `c = 5` and the sum directive
`total_sum = ["a", "b", "c"]` with its tag present, fresh error state. -/
def c2State : opentaxliberty.ProcState :=
  { data := [("section1", .obj
      [("a", .num 10), ("b", .str "x"), ("c", .num 5),
       ("total_sum", .list [.str "a", .str "b", .str "c"]),
       ("total_sum_tag", .str "t")])],
    writes := [], errs := opentaxliberty.ErrState.init }

/-- C2 input with the non-numeric error for `(section1, b)` already
recorded in the deduplication state. -/
def c2StateSeen : opentaxliberty.ProcState :=
  { c2State with errs :=
      { opentaxliberty.ErrState.init with type_error := ["non_numeric_section1_b"] } }

/-- C3 input: a sum directive whose single reference `zz` is absent from
the section. -/
def c3State : opentaxliberty.ProcState :=
  { data := [("sec1", .obj [("t_sum", .list [.str "zz"]), ("t_sum_tag", .str "tag1")])],
    writes := [], errs := opentaxliberty.ErrState.init }

/-- First processing of the all-references-missing sum directive. -/
def c3Run1 : opentaxliberty.ProcState × Option PyErr :=
  opentaxliberty.process_sum_calculation c3State "sec1" "t_sum"

/-- Second processing of the identical directive with the error-tracking
state left by the first. -/
def c3Run2 : opentaxliberty.ProcState × Option PyErr :=
  opentaxliberty.process_sum_calculation c3Run1.1 "sec1" "t_sum"

/-- C4 run 1 input: a top-level section bound to a non-dict value, which
makes the run fail with a critical error. -/
def c4BadData : Value := .obj [("configuration", .obj []), ("bad", .num 5)]

/-- C4 run 2 input: a minimal, entirely error-free configuration. -/
def c4CleanData : Value := .obj [("configuration", .obj [])]

/-- The result and final global error state of the failing first run. -/
def c4Run1 : opentaxliberty.ProcState × Option PyErr :=
  opentaxliberty.process_input_json c4BadData opentaxliberty.ErrState.init

/-- C5 input: `sec1` declares a failing sum directive (its one reference
`zz` missing) BEFORE the ordinary field `f` with tag `t2`; `sec2` follows
with field `g` tagged `t3`. -/
def c5Data : Value := .obj
  [("configuration", .obj []),
   ("sec1", .obj [("bad_sum", .list [.str "zz"]), ("bad_sum_tag", .str "t1"),
                  ("f", .num 7), ("f_tag", .str "t2")]),
   ("sec2", .obj [("g", .num 8), ("g_tag", .str "t3")])]

/-- The full processing run on `c5Data` from a fresh error state. -/
def c5Run : opentaxliberty.ProcState × Option PyErr :=
  opentaxliberty.process_input_json c5Data opentaxliberty.ErrState.init

/-- The interpreter state at the start of the `c5Data` walk. -/
def c5St0 : opentaxliberty.ProcState :=
  { data := [("configuration", .obj []),
             ("sec1", .obj [("bad_sum", .list [.str "zz"]), ("bad_sum_tag", .str "t1"),
                            ("f", .num 7), ("f_tag", .str "t2")]),
             ("sec2", .obj [("g", .num 8), ("g_tag", .str "t3")])],
    writes := [], errs := opentaxliberty.ErrState.init }

/-- C8 first W-2 entry, validated form: wages 550, withholding 0. -/
def c8e1 : W2_validator.W2Entry := { organization := "emp1", box_1 := 550, box_2 := 0 }

/-- C8 second W-2 entry, validated form: wages 3907.57, withholding
54.31. -/
def c8e2 : W2_validator.W2Entry :=
  { organization := "emp2", box_1 := 390757/100, box_2 := 5431/100 }

/-- C8 first W-2 entry as raw JSON for `calculate_w2_totals`. -/
def c8e1v : Value := .obj [("box_1", .num 550), ("box_2", .num 0)]

/-- C8 second W-2 entry as raw JSON for `calculate_w2_totals`. -/
def c8e2v : Value := .obj [("box_1", .num (390757/100)), ("box_2", .num (5431/100))]

/-- The `box_1_tag` holder that the w-2 list format appends second to
last. -/
def c8tag1 : Value := .obj [("box_1_tag", .str "w1")]

/-- The `box_2_tag` holder that the w-2 list format appends last. -/
def c8tag2 : Value := .obj [("box_2_tag", .str "w2")]

/-- C9 witness section: a subtract directive with no tag sibling at
all. -/
def c9Sec : Dict := [("x_subtract", .list [.str "a", .str "b"]), ("a", .num 4), ("b", .num 1)]

/-- C9 witness state wrapping `c9Sec` as section `s`. -/
def c9St : opentaxliberty.ProcState :=
  { data := [("s", .obj c9Sec)], writes := [], errs := opentaxliberty.ErrState.init }

/-- C10 witness filing status: single (`"/1"`), the other checkboxes
off. -/
def c10fs : F1040.FilingStatus :=
  { single_or_HOH := "/1", married_filing_jointly_or_QSS := "/Off",
    married_filing_separately := "/Off" }

/-! The claim theorems. -/

/-- C1: the spec claims a negative subtraction result is stored back into
the model as `0` while the PDF receives `"-0-"`.  Evaluating
`process_subtraction_calculation` on `subtract(["a","b"])` with `a = 50`,
`b = 75` shows the code forwards `"-0-"` to the PDF sink but stores the
raw negative result `-25` — not `0` — at the directive key. -/
theorem C1_subtract_negative_stores_raw_result :
    (opentaxliberty.process_subtraction_calculation c1State "section1" "subtract_result").2
      = none ∧
    (opentaxliberty.process_subtraction_calculation c1State "section1" "subtract_result").1.writes
      = [(.str "t", .str "-0-")] ∧
    modelValue
      (opentaxliberty.process_subtraction_calculation c1State "section1" "subtract_result").1
      "section1" "subtract_result" = some (.num (-25)) ∧
    ((-25 : ℚ) ≠ 0) :=
  ⟨by with_unfolding_all rfl, by with_unfolding_all rfl, by with_unfolding_all rfl,
   by norm_num⟩

/-- C2 counterexample: the claim says a non-numeric reference is silently
excluded from the sum with no error.  On a fresh run,
`sum(["a","b","c"])` with `a = 10`, `b = "x"`, `c = 5` raises a
`TypeError` at `b`: nothing is written to the PDF and the directive key
keeps its list value instead of becoming `15`. -/
theorem C2_sum_non_numeric_raises_first_time :
    isTypeErr (opentaxliberty.process_sum_calculation c2State "section1" "total_sum").2
      = true ∧
    (opentaxliberty.process_sum_calculation c2State "section1" "total_sum").1.writes = [] ∧
    modelValue (opentaxliberty.process_sum_calculation c2State "section1" "total_sum").1
      "section1" "total_sum" = some (.list [.str "a", .str "b", .str "c"]) :=
  ⟨by with_unfolding_all rfl, by with_unfolding_all rfl, by with_unfolding_all rfl⟩

/-- C2 amended: a non-numeric reference raises `TypeError` on its first
occurrence; only when the same `(section, field)` non-numeric error was
already reported is the value silently excluded, and then the remaining
numeric values accumulate: with `non_numeric_section1_b` already recorded,
`sum(["a","b","c"])` with `a = 10`, `b = "x"`, `c = 5` yields `15`, stored
at the directive key and forwarded to the PDF sink. -/
theorem C2_sum_excludes_non_numeric_after_dedup :
    (opentaxliberty.process_sum_calculation c2StateSeen "section1" "total_sum").2 = none ∧
    (opentaxliberty.process_sum_calculation c2StateSeen "section1" "total_sum").1.writes
      = [(.str "t", .num 15)] ∧
    modelValue (opentaxliberty.process_sum_calculation c2StateSeen "section1" "total_sum").1
      "section1" "total_sum" = some (.num 15) :=
  ⟨by with_unfolding_all rfl, by with_unfolding_all rfl, by with_unfolding_all rfl⟩

/-- C3 counterexample: the claim says the identical error raised twice in
one run is logged once but raised on both occurrences.  For a sum
directive whose every reference is missing, the first processing raises a
`KeyError`, but the second processing of the identical directive — the
dedup key now recorded — raises nothing at all. -/
theorem C3_repeat_error_not_raised :
    isKeyErr c3Run1.2 = true ∧ c3Run2.2 = none :=
  ⟨by with_unfolding_all rfl, by with_unfolding_all rfl⟩

/-- C3 amended: the identical error is logged once, but it is also RAISED
only once: the `raise` sits inside the deduplication block, so the repeat
occurrence is suppressed entirely — no log, no exception — and the sum
directive then completes, writing its partial (here `0`) total to the PDF
and into the model.  Deduplication does change caller-visible control
flow. -/
theorem C3_dedup_suppresses_raise_and_proceeds :
    isKeyErr c3Run1.2 = true ∧
    c3Run1.1.errs.key_error = ["sec1_t_sum_missing_zz"] ∧
    c3Run2.2 = none ∧
    c3Run2.1.errs.key_error = ["sec1_t_sum_missing_zz"] ∧
    c3Run2.1.writes = [(.str "tag1", .num 0)] ∧
    modelValue c3Run2.1 "sec1" "t_sum" = some (.num 0) :=
  ⟨by with_unfolding_all rfl, by with_unfolding_all rfl, by with_unfolding_all rfl,
   by with_unfolding_all rfl, by with_unfolding_all rfl, by with_unfolding_all rfl⟩

/-- C4: `reset_error_tracking` rebinds `reported_errors` but assigns
`has_critical_errors` as a function-local name, so the critical flag is
NOT reset at the start of `process_input_json`.  A clean input that
processes without error from a fresh state fails with the aggregate
`ValueError` when processed right after a run that recorded a critical
error. -/
theorem C4_critical_flag_survives_reset :
    isValueErr c4Run1.2 = true ∧
    (opentaxliberty.process_input_json c4CleanData opentaxliberty.ErrState.init).2 = none ∧
    isValueErr (opentaxliberty.process_input_json c4CleanData c4Run1.1.errs).2 = true ∧
    (∀ es : opentaxliberty.ErrState,
      (opentaxliberty.reset_error_tracking es).has_critical_errors
        = es.has_critical_errors) :=
  ⟨by with_unfolding_all rfl, by with_unfolding_all rfl, by with_unfolding_all rfl,
   fun _ => rfl⟩

/-- C5 counterexample: the claim says processing continues to the next
field within the same section after a field fails.  In `c5Data` the
failing `bad_sum` directive precedes field `f` (tag `t2`) in `sec1`; the
full run never writes `t2`, while it does write `t3` of the following
section and ends in the aggregate `ValueError`. -/
theorem C5_field_after_error_is_skipped :
    writesContain c5Run.1.writes "t2" = false ∧
    writesContain c5Run.1.writes "t3" = true ∧
    c5Run.1.writes = [(.str "t3", .num 8)] ∧
    isValueErr c5Run.2 = true :=
  ⟨by with_unfolding_all rfl, by with_unfolding_all rfl, by with_unfolding_all rfl,
   by with_unfolding_all rfl⟩

/-- C5 amended: per-field errors propagate out of
`process_generic_section`, so a failing field aborts the REMAINING FIELDS
OF ITS OWN SECTION; the error is caught at the top-level per-section
boundary, which marks the critical flag and continues with the subsequent
sections, and the single aggregate error is raised only after the full
walk.  Formally: whenever a section's processing returns an error, the
top-level loop proceeds to the remaining keys with the critical flag
set. -/
theorem C5_error_caught_at_section_boundary :
    ∀ (k : String) (rest : List String) (st : opentaxliberty.ProcState),
      k ≠ "configuration" → k ≠ "w-2" →
      (opentaxliberty.process_generic_section st k).2.isSome = true →
      opentaxliberty.topLoop (k :: rest) st
        = opentaxliberty.topLoop rest
            (opentaxliberty.setCritical (opentaxliberty.process_generic_section st k).1) := by
  intro k rest st h1 h2 h3
  rcases hpg : opentaxliberty.process_generic_section st k with ⟨st1, e?⟩
  rcases e? with _ | e
  · rw [hpg] at h3
    simp at h3
  · conv_lhs => rw [opentaxliberty.topLoop]
    rw [if_neg h1, if_neg h2, hpg]

/-- C5 witness: the boundary theorem applied to the concrete failing
section `sec1` of `c5Data`, its hypotheses discharged by evaluation. -/
theorem C5_error_caught_at_section_boundary_witness :
    ("sec1" ≠ "configuration") ∧ ("sec1" ≠ "w-2") ∧
    (opentaxliberty.process_generic_section c5St0 "sec1").2.isSome = true ∧
    opentaxliberty.topLoop ["sec1", "sec2"] c5St0
      = opentaxliberty.topLoop ["sec2"]
          (opentaxliberty.setCritical
            (opentaxliberty.process_generic_section c5St0 "sec1").1) :=
  ⟨by decide, by decide, by with_unfolding_all rfl,
   C5_error_caught_at_section_boundary "sec1" ["sec2"] c5St0 (by decide) (by decide)
     (by with_unfolding_all rfl)⟩

/-- C6: the spec claims `classify` returns a `(is_numeric, value)` pair
with string coercion, e.g. `classify("1,234.50") == (True, 1234.5)`.  The
code's `is_number` is the bare `isinstance(value, (int, float))` check: it
returns a single boolean, and every string — `"1,234.50"` included — and
`None` map to `False`. -/
theorem C6_is_number_is_bare_isinstance :
    opentaxliberty.is_number (.str "1,234.50") = false ∧
    opentaxliberty.is_number (.str "abc") = false ∧
    opentaxliberty.is_number .null = false ∧
    opentaxliberty.is_number (.num (12345/10)) = true :=
  ⟨rfl, rfl, rfl, rfl⟩

/-- C7 counterexample: the claim quantifies over every `write_field_pdf`
call, but the `opentaxliberty.py` variant — the one the JSON interpreter
uses — suppresses only the empty string: writing the number `0` there DOES
invoke the underlying field update, with the raw `0`. -/
theorem C7_otl_sink_writes_zero :
    opentaxliberty.write_field_pdf (.num 0) = some (.num 0) ∧
    (opentaxliberty.write_field_pdf (.num 0)).isSome = true :=
  ⟨rfl, rfl⟩

/-- C7 amended: the `pdf_utility.write_field_pdf` sink behaves as the
claim states — `0` and `""` are suppressed, the whole-valued `14600.00`
is written as the integer string `"14600"`, `31.5` keeps its fractional
part, and the literal `"-0-"` passes through unchanged — while the
`opentaxliberty.write_field_pdf` variant suppresses only `""` and
forwards every other value unformatted, `0` included. -/
theorem C7_sink_normalization :
    pdf_utility.write_field_pdf (.num 0) = none ∧
    pdf_utility.write_field_pdf (.str "") = none ∧
    pdf_utility.write_field_pdf (.num 14600) = some "14600" ∧
    pdf_utility.write_field_pdf (.num (63/2)) = some "31.5" ∧
    pdf_utility.write_field_pdf (.str "-0-") = some "-0-" ∧
    opentaxliberty.write_field_pdf (.str "") = none ∧
    opentaxliberty.write_field_pdf (.num 0) = some (.num 0) ∧
    opentaxliberty.write_field_pdf (.num 14600) = some (.num 14600) :=
  ⟨by with_unfolding_all rfl, by with_unfolding_all rfl, by with_unfolding_all rfl,
   by with_unfolding_all rfl, by with_unfolding_all rfl, rfl, rfl, rfl⟩

/-- C8 counterexample: `opentaxliberty.calculate_w2_totals` always skips
the final two list elements (reserved for the tag holders), so on a list
holding EXACTLY the two claimed entries and nothing else it computes
`(0, 0)`, not `(4457.57, 54.31)`. -/
theorem C8_w2_totals_bare_entries :
    opentaxliberty.calculate_w2_totals [c8e1v, c8e2v] = .ok (0, 0) ∧
    opentaxliberty.calculate_w2_totals [c8e1v, c8e2v]
      ≠ .ok ((445757 : ℚ)/100, (5431 : ℚ)/100) := by
  constructor
  · with_unfolding_all rfl
  · rw [show opentaxliberty.calculate_w2_totals [c8e1v, c8e2v] = .ok (0, 0) from by
      with_unfolding_all rfl]
    intro h
    rw [Except.ok.injEq, Prod.mk.injEq] at h
    exact absurd h.1 (by norm_num)

/-- C8 amended: on exactly the two entries `{box_1:550, box_2:0}` and
`{box_1:3907.57, box_2:54.31}`, the validated `W2Document.calculate_totals`
yields `total_box_1 = 4457.57` and `total_box_2 = 54.31`; the
`opentaxliberty.calculate_w2_totals` helper skips the last two list
elements, so it produces those totals only when the two tag-holder entries
follow the data entries. -/
theorem C8_w2_totals :
    dictGet (W2_validator.calculate_totals [c8e1, c8e2]) "total_box_1"
      = some (445757/100) ∧
    dictGet (W2_validator.calculate_totals [c8e1, c8e2]) "total_box_2"
      = some (5431/100) ∧
    opentaxliberty.calculate_w2_totals [c8e1v, c8e2v, c8tag1, c8tag2]
      = .ok (445757/100, 5431/100) :=
  ⟨by with_unfolding_all rfl, by with_unfolding_all rfl, by with_unfolding_all rfl⟩

/-- C9: a sum directive, a subtract directive and a regular field whose
tag sibling is absent from the section or bound to a falsy value are all
processed as silent no-ops: no error, no PDF write, and the state — the
directive key's own value included — is returned unchanged. -/
theorem C9_missing_tag_is_silent_noop :
    ∀ (st : opentaxliberty.ProcState) (key sub_key : String) (sec : Dict),
      dictGet st.data key = some (.obj sec) →
      opentaxliberty.tagGate sec sub_key = false →
      opentaxliberty.process_sum_calculation st key sub_key = (st, none) ∧
      opentaxliberty.process_subtraction_calculation st key sub_key = (st, none) ∧
      ∀ v : Value, opentaxliberty.process_regular_field st key sub_key v = (st, none) := by
  intro st key sk sec h hg
  refine ⟨?_, ?_, fun v => ?_⟩
  · simp [opentaxliberty.process_sum_calculation, h, hg]
  · simp [opentaxliberty.process_subtraction_calculation, h, hg]
  · simp [opentaxliberty.process_regular_field, h, hg]

/-- C9 witness: the no-op theorem applied to a concrete state whose
`x_subtract` directive has no `x_subtract_tag` sibling. -/
theorem C9_missing_tag_is_silent_noop_witness :
    dictGet c9St.data "s" = some (.obj c9Sec) ∧
    opentaxliberty.tagGate c9Sec "x_subtract" = false ∧
    opentaxliberty.process_subtraction_calculation c9St "s" "x_subtract" = (c9St, none) :=
  ⟨rfl, rfl,
   (C9_missing_tag_is_silent_noop c9St "s" "x_subtract" c9Sec rfl rfl).2.1⟩

/-- C10: under the one-status-selected validation invariant,
`calculate_standard_deduction` overwrites `income.L12` with the amount its
filing status dictates — 14600 for single or married-filing-separately
(`"/1"`), 29200 for married-filing-jointly-or-QSS (`"/3"`/`"/4"`), 21900
for head of household (`"/2"`) — for EVERY incoming `L12`, so an explicit
non-zero user-supplied deduction is discarded (the skip-if-set guard is
commented out in the source). -/
theorem C10_standard_deduction_always_overwrites :
    ∀ (fs : F1040.FilingStatus) (L12 : ℚ),
      F1040.oneStatusSelected fs →
      ((fs.single_or_HOH = "/1" ∨ fs.married_filing_separately = "/1") →
        F1040.calculate_standard_deduction fs L12 = 14600) ∧
      ((fs.married_filing_jointly_or_QSS = "/3" ∨
          fs.married_filing_jointly_or_QSS = "/4") →
        F1040.calculate_standard_deduction fs L12 = 29200) ∧
      (fs.single_or_HOH = "/2" → F1040.calculate_standard_deduction fs L12 = 21900) := by
  intro fs L12 hsel
  refine ⟨fun h => ?_, fun h => ?_, fun h => ?_⟩
  · simp [F1040.calculate_standard_deduction, h]
  · rcases hsel with ⟨h1, h2, h3⟩ | ⟨h1, h2, h3⟩ | ⟨h1, h2, h3⟩
    · rcases h with h | h <;> rw [h2] at h <;> simp at h
    · rw [F1040.calculate_standard_deduction, if_neg, if_pos h]
      rw [h1, h3]
      simp
    · rcases h with h | h <;> rw [h2] at h <;> simp at h
  · rcases hsel with ⟨h1, h2, h3⟩ | ⟨h1, h2, h3⟩ | ⟨h1, h2, h3⟩
    · rw [F1040.calculate_standard_deduction, if_neg, if_neg, if_pos h]
      · rw [h2]; simp
      · rw [h, h3]; simp
    · rw [h1] at h; simp at h
    · rw [h1] at h; simp at h

/-- C10 witness: the overwrite theorem applied to the single filing
status with an explicit non-zero incoming `L12 = 5000`, which is replaced
by 14600. -/
theorem C10_standard_deduction_always_overwrites_witness :
    F1040.oneStatusSelected c10fs ∧
    F1040.calculate_standard_deduction c10fs 5000 = 14600 :=
  ⟨Or.inl ⟨by decide, rfl, rfl⟩,
   (C10_standard_deduction_always_overwrites c10fs 5000
     (Or.inl ⟨by decide, rfl, rfl⟩)).1 (Or.inl rfl)⟩
